import Mathlib

/-!
Verification of the well-known-components tracer-component repository.

The development shallowly embeds the two source modules:

* the identity & formatting module (src/logic.ts): buildTraceString,
  generateTraceId, generateSpanId, buildTraceContext;
* the scope engine (src/tracer.ts, createTracerComponent): span and all
  accessors/mutators over the implicitly bound TraceContext.

Modelling decisions, all taken from the JavaScript runtime semantics of the
source:

* JavaScript numbers that occur here are either small non-negative integers
  or NaN, so they are modelled by JSNum (nat or nan).  The seed context
  handed to span may dynamically carry strings in its version/traceFlags
  slots (the repository's own test suite does exactly that), so those slots
  are modelled by JSVal and the source's Number(...) conversion by jsNumber.
* The four fields of a TraceContext that isInsideOfTraceSpan defensively
  checks against undefined are modelled as Option values, mirroring the
  dynamic possibility of undefined that the source code tests for.
* Record&lt;string, string&gt; trace-state objects are mutable JavaScript objects
  shared by reference: they live in an explicit heap (a list of JSMap),
  and a TraceContext holds an Option Nat reference into that heap.
  Object.freeze freezes the referenced object in place, so JSMap carries a
  frozen flag; a property write or delete on a frozen object leaves it
  unchanged (in strict mode it would additionally throw a TypeError; the
  resulting object state is the same either way).
* AsyncLocalStorage.run from node:async_hooks is platform code: per its
  documented contract it binds the given store for exactly the extent of the
  callback and restores the previous store unconditionally, passing the
  callback's result or exception through.  alsRun models that contract with
  explicit state passing; a traced function is any state transformer that
  returns a value or raises (Except).
* Random id generation (node:crypto randomBytes(n).toString('hex')) is
  modelled by passing the drawn bytes explicitly and converting them with
  bytesToHex, two lowercase hex characters per byte.
-/

set_option autoImplicit false

namespace Tracer

/-- A JavaScript number as it occurs in this code base: a small non-negative
integer or NaN (the result of Number(...) on a non-numeric string). -/
inductive JSNum where
  | nan
  | nat (n : Nat)
  deriving DecidableEq, Repr

/-- A dynamically typed JavaScript value that can sit in the version or
traceFlags slot of a seed context: a number, a string, or undefined. -/
inductive JSVal where
  | num (n : JSNum)
  | str (s : String)
  | undef
  deriving DecidableEq, Repr

/-- Decimal value of a digit string, as JavaScript Number() computes it for
strings of decimal digits. -/
def decimalValue (s : String) : Nat :=
  s.data.foldl (fun acc c => acc * 10 + (c.toNat - 48)) 0

/-- JavaScript Number() on a string, restricted to the string shapes this
repository passes: strings of decimal digits (for example "00") convert to
their decimal value, the empty string converts to 0, and anything else is
mapped to NaN (a conservative stand-in for the remaining numeric syntaxes,
none of which occur in this code base or its tests). -/
def jsStringToNumber (s : String) : JSNum :=
  if s.data.all Char.isDigit then JSNum.nat (decimalValue s) else JSNum.nan

/-- JavaScript Number(...) on the dynamic values that occur here. -/
def jsNumber : JSVal → JSNum
  | JSVal.num n => n
  | JSVal.str s => jsStringToNumber s
  | JSVal.undef => JSNum.nan

/-- JavaScript Number.prototype.toString(16): natural hexadecimal rendering
with lowercase digits and no padding; NaN renders as "NaN". -/
def JSNum.toString16 : JSNum → String
  | JSNum.nan => "NaN"
  | JSNum.nat n => String.mk (Nat.toDigits 16 n)

/-- Two lowercase hex characters for one byte, as Buffer.toString('hex')
renders it (zero-padded to width 2). -/
def byteToHex (b : Nat) : String :=
  String.mk [Nat.digitChar (b / 16 % 16), Nat.digitChar (b % 16)]

/-- Hex rendering of a byte sequence, as Buffer.toString('hex'). -/
def bytesToHex : List Nat → String
  | [] => ""
  | b :: rest => byteToHex b ++ bytesToHex rest

/-- generateTraceId (src/logic.ts): hex string of the 16 random bytes drawn
by randomBytes(16); the bytes are passed explicitly. -/
def generateTraceId (bytes : List Nat) : String :=
  bytesToHex bytes

/-- generateSpanId (src/logic.ts): hex string of the 8 random bytes drawn by
randomBytes(8); the bytes are passed explicitly. -/
def generateSpanId (bytes : List Nat) : String :=
  bytesToHex bytes

/-- Modelled from the spec: src/constants.ts is not among the sources; the
spec reserves an invalid span id sentinel, a fixed all-zero hex string of the
same length as a generated span id (16 characters). -/
def INVALID_SPAN_ID : String := "0000000000000000"

/-- The Trace record (the external-facing subset {traceId, version, parentId,
traceFlags}).  Fields are Option-valued to mirror the dynamic possibility of
undefined that the scope engine defensively checks. -/
structure Trace where
  traceId : Option String
  version : Option JSNum
  parentId : Option String
  traceFlags : Option JSNum
  deriving DecidableEq, Repr

/-- Template interpolation of a possibly-undefined string value: undefined
interpolates as the text "undefined". -/
def jsInterpolate : Option String → String
  | some s => s
  | none => "undefined"

/-- buildTraceString (src/logic.ts): the four dash-joined fields
version-traceId-parentId-traceFlags, with version and traceFlags rendered by
toString(16).  toString(16) on undefined throws a TypeError, modelled as
none; otherwise the function is a pure string computation. -/
def buildTraceString (traceParent : Trace) : Option String :=
  match traceParent.version, traceParent.traceFlags with
  | some v, some f =>
      some (v.toString16 ++ "-" ++ jsInterpolate traceParent.traceId ++ "-" ++
        jsInterpolate traceParent.parentId ++ "-" ++ f.toString16)
  | _, _ => none

/-- A mutable JavaScript trace-state object (Record from string to string):
its property entries in insertion order, plus whether Object.freeze has been
applied to it. -/
structure JSMap where
  entries : List (String × String)
  frozen : Bool
  deriving DecidableEq, Repr

/-- The full TraceContext record bound during a span.  traceState is a
reference (heap index) to a shared mutable trace-state object. -/
structure TraceContext (D : Type) where
  name : String
  id : String
  parentId : Option String
  traceId : Option String
  version : Option JSNum
  traceFlags : Option JSNum
  traceState : Option Nat
  data : Option D
  deriving DecidableEq, Repr

/-- The input record destructured by buildTraceContext (src/logic.ts):
everything but the id, with parentId, traceState and data optional. -/
structure BuildTraceContextInput (D : Type) where
  name : String
  parentId : Option String
  traceId : Option String
  version : Option JSNum
  traceFlags : Option JSNum
  traceState : Option Nat
  data : Option D
  deriving DecidableEq, Repr

/-- buildTraceContext (src/logic.ts): assigns a freshly generated id (the
generated value is passed explicitly), substitutes the invalid span id
sentinel for a missing parentId, and copies every other field through
unchanged. -/
def buildTraceContext {D : Type} (freshId : String) (i : BuildTraceContextInput D) :
    TraceContext D :=
  { name := i.name
    id := freshId
    parentId := some (i.parentId.getD INVALID_SPAN_ID)
    traceId := i.traceId
    version := i.version
    traceFlags := i.traceFlags
    traceState := i.traceState
    data := i.data }

/-- The seed trace context optionally handed to span (the traceContext
parameter, typed Omit of TraceContext without id and name).  Its version and
traceFlags slots are dynamically typed (the test suite passes strings such
as "00" there), which is why span runs them through Number(...). -/
structure SeedContext (D : Type) where
  parentId : Option String
  traceId : Option String
  version : JSVal
  traceFlags : JSVal
  traceState : Option Nat
  data : Option D
  deriving DecidableEq, Repr

/-- Modelled from the spec: src/errors.ts is not among the sources; the spec
specifies a single error kind, NotInSpanError, carrying no payload beyond
its kind. -/
inductive NotInSpanError where
  | mk
  deriving DecidableEq, Repr

/-- The scope engine's state: the heap of allocated trace-state objects and
the implicit AsyncLocalStorage slot holding the currently bound TraceContext
(or none) of the execution branch under consideration. -/
structure EngineState (D : Type) where
  heap : List JSMap
  current : Option (TraceContext D)
  deriving DecidableEq, Repr

/-- Replace the heap object at reference r by f of it (in-place object
mutation); out-of-range references leave the heap unchanged. -/
def heapModify (f : JSMap → JSMap) : List JSMap → Nat → List JSMap
  | [], _ => []
  | m :: t, 0 => f m :: t
  | m :: t, n + 1 => m :: heapModify f t n

/-- JavaScript property assignment obj[k] = v on an entry list: an existing
key keeps its position and gets the new value, a new key is appended. -/
def entriesSet (es : List (String × String)) (k v : String) : List (String × String) :=
  if es.any (fun p => p.1 == k) then es.map (fun p => if p.1 == k then (k, v) else p)
  else es ++ [(k, v)]

/-- JavaScript delete obj[k] on an entry list: removes the key, keeping the
order of the remaining entries. -/
def entriesDelete (es : List (String × String)) (k : String) : List (String × String) :=
  es.filter (fun p => !(p.1 == k))

/-- Property assignment on the heap object at r.  On a frozen object the
assignment does not change the object (in strict mode it would additionally
throw a TypeError; the object state is identical either way). -/
def objectSet (h : List JSMap) (r : Nat) (k v : String) : List JSMap :=
  heapModify (fun m => if m.frozen then m else { m with entries := entriesSet m.entries k v }) h r

/-- Property deletion on the heap object at r; a frozen object is unchanged. -/
def objectDelete (h : List JSMap) (r : Nat) (k : String) : List JSMap :=
  heapModify (fun m => if m.frozen then m else { m with entries := entriesDelete m.entries k }) h r

/-- Object.freeze applied to the heap object at r. -/
def freezeObject (h : List JSMap) (r : Nat) : List JSMap :=
  heapModify (fun m => { m with frozen := true }) h r

/-- Context derivation of span (src/tracer.ts): seed branch, nested branch,
and the fresh-trace branch, in the source's precedence order.  The freshly
generated span id and trace id are passed explicitly. -/
def deriveContext {D : Type} (parentTraceContext : Option (TraceContext D))
    (traceContext : Option (SeedContext D)) (name : String)
    (freshSpanId freshTraceId : String) : TraceContext D :=
  match traceContext with
  | some tc =>
      buildTraceContext freshSpanId
        { name := name
          parentId := tc.parentId
          traceId := tc.traceId
          version := some (jsNumber tc.version)
          traceFlags := some (jsNumber tc.traceFlags)
          traceState := tc.traceState
          data := tc.data }
  | none =>
    match parentTraceContext with
    | some p =>
        buildTraceContext freshSpanId
          { name := name
            parentId := p.traceId
            traceId := p.traceId
            version := p.version
            traceFlags := p.traceFlags
            traceState := p.traceState
            data := none }
    | none =>
        buildTraceContext freshSpanId
          { name := name
            parentId := some INVALID_SPAN_ID
            traceId := some freshTraceId
            version := some (JSNum.nat 0)
            traceFlags := some (JSNum.nat 0)
            traceState := none
            data := none }

/-- AsyncLocalStorage.run (node:async_hooks), per its documented contract:
runs the callback with the given store bound as current, restores the store
that was bound before - unconditionally, also when the callback raises - and
passes the callback's value or exception through.  A callback is an
arbitrary state transformer returning a value or a raised condition. -/
def alsRun {D : Type} {ε α : Type} (st : EngineState D) (c : TraceContext D)
    (callback : EngineState D → EngineState D × Except ε α) :
    EngineState D × Except ε α :=
  let r := callback { st with current := some c }
  ({ r.1 with current := st.current }, r.2)

/-- span (src/tracer.ts): reads the currently bound context, derives the new
context in the three-branch precedence order, and runs the traced function
under the new binding via AsyncLocalStorage.run.  The random bytes consumed
by the generated span id and (in the fresh-trace branch) trace id are passed
explicitly. -/
def span {D : Type} {ε α : Type} (st : EngineState D) (name : String)
    (tracedFunction : EngineState D → EngineState D × Except ε α)
    (traceContext : Option (SeedContext D)) (spanIdBytes traceIdBytes : List Nat) :
    EngineState D × Except ε α :=
  let newContext :=
    deriveContext st.current traceContext name (generateSpanId spanIdBytes)
      (generateTraceId traceIdBytes)
  alsRun st newContext tracedFunction

/-- isInsideOfTraceSpan (src/tracer.ts): a context is bound and its
parentId, traceId, traceFlags and version are all defined. -/
def isInsideOfTraceSpan {D : Type} (st : EngineState D) : Bool :=
  match st.current with
  | none => false
  | some c => c.parentId.isSome && c.traceId.isSome && c.traceFlags.isSome && c.version.isSome

/-- getSpanId (src/tracer.ts). -/
def getSpanId {D : Type} (st : EngineState D) : Except NotInSpanError String :=
  match st.current with
  | none => Except.error NotInSpanError.mk
  | some c => Except.ok c.id

/-- getTrace (src/tracer.ts). -/
def getTrace {D : Type} (st : EngineState D) : Except NotInSpanError Trace :=
  match st.current with
  | none => Except.error NotInSpanError.mk
  | some c =>
      Except.ok
        { traceId := c.traceId
          version := c.version
          parentId := c.parentId
          traceFlags := c.traceFlags }

/-- getTraceString (src/tracer.ts): buildTraceString of getTrace. -/
def getTraceString {D : Type} (st : EngineState D) : Except NotInSpanError (Option String) :=
  (getTrace st).map buildTraceString

/-- getTraceChild (src/tracer.ts): like getTrace but with parentId replaced
by the current span's own id. -/
def getTraceChild {D : Type} (st : EngineState D) : Except NotInSpanError Trace :=
  match st.current with
  | none => Except.error NotInSpanError.mk
  | some c =>
      Except.ok
        { traceId := c.traceId
          version := c.version
          parentId := some c.id
          traceFlags := c.traceFlags }

/-- getTraceChildString (src/tracer.ts). -/
def getTraceChildString {D : Type} (st : EngineState D) : Except NotInSpanError (Option String) :=
  (getTraceChild st).map buildTraceString

/-- getTraceState (src/tracer.ts): Object.freeze(currentContext.traceState
?? null).  Freezing acts in place on the referenced live object; the
returned observation is that object's entry list at call time, or none for
null. -/
def getTraceState {D : Type} (st : EngineState D) :
    Except NotInSpanError (EngineState D × Option (List (String × String))) :=
  match st.current with
  | none => Except.error NotInSpanError.mk
  | some c =>
    match c.traceState with
    | none => Except.ok (st, none)
    | some r =>
        Except.ok ({ st with heap := freezeObject st.heap r }, (st.heap.get? r).map JSMap.entries)

/-- One step of the reduce inside getTraceStateString: the accumulator grows
by "=" followed by the template interpolation of the whole [key, value]
entry array (which JavaScript renders as key ++ "," ++ value), followed by a
comma for every entry but the last. -/
def entryToString (p : String × String) : String :=
  p.1 ++ "," ++ p.2

/-- The reduce of getTraceStateString over the entry list. -/
def traceStateReduce : String → List (String × String) → String
  | acc, [] => acc
  | acc, [p] => acc ++ "=" ++ entryToString p
  | acc, p :: q :: rest => traceStateReduce (acc ++ "=" ++ entryToString p ++ ",") (q :: rest)

/-- getTraceStateString (src/tracer.ts): the reduce applied when getTraceState
returned a non-null object with at least one key, undefined otherwise. -/
def getTraceStateString {D : Type} (st : EngineState D) :
    Except NotInSpanError (EngineState D × Option String) :=
  (getTraceState st).map fun p =>
    (p.1,
      match p.2 with
      | some entries => if entries.length > 0 then some (traceStateReduce "" entries) else none
      | none => none)

/-- getContextData (src/tracer.ts): the current context's data, or none for
null.  Object.freeze on the opaque data value is not observable here. -/
def getContextData {D : Type} (st : EngineState D) : Except NotInSpanError (Option D) :=
  match st.current with
  | none => Except.error NotInSpanError.mk
  | some c => Except.ok c.data

/-- setContextData (src/tracer.ts): replaces the bound context's data
wholesale. -/
def setContextData {D : Type} (st : EngineState D) (d : D) :
    Except NotInSpanError (EngineState D) :=
  match st.current with
  | none => Except.error NotInSpanError.mk
  | some c => Except.ok { st with current := some { c with data := some d } }

/-- setTraceStateProperty (src/tracer.ts): allocates a fresh empty
trace-state object on the bound context when it has none, then assigns the
property on the referenced object. -/
def setTraceStateProperty {D : Type} (st : EngineState D) (key value : String) :
    Except NotInSpanError (EngineState D) :=
  match st.current with
  | none => Except.error NotInSpanError.mk
  | some c =>
    match c.traceState with
    | none =>
        let r := st.heap.length
        let heapExt := st.heap ++ [{ entries := [], frozen := false }]
        Except.ok
          { heap := objectSet heapExt r key value
            current := some { c with traceState := some r } }
    | some r => Except.ok { st with heap := objectSet st.heap r key value }

/-- deleteTraceStateProperty (src/tracer.ts): deletes the property on the
referenced object when the bound context has one; a no-op otherwise. -/
def deleteTraceStateProperty {D : Type} (st : EngineState D) (key : String) :
    Except NotInSpanError (EngineState D) :=
  match st.current with
  | none => Except.error NotInSpanError.mk
  | some c =>
    match c.traceState with
    | none => Except.ok st
    | some r => Except.ok { st with heap := objectDelete st.heap r key }

/-- Runs a mutator the way a JavaScript call site experiences it: on success
the state advances, on a throw the state is left exactly as it was and the
error propagates. -/
def runMutator {D : Type} (f : EngineState D → Except NotInSpanError (EngineState D))
    (st : EngineState D) : EngineState D × Except NotInSpanError Unit :=
  match f st with
  | Except.ok st' => (st', Except.ok ())
  | Except.error e => (st, Except.error e)

/-- The state after a getTraceState call, discarding its return value; a
throwing call leaves the state unchanged. -/
def afterGetTraceState {D : Type} (st : EngineState D) : EngineState D :=
  match getTraceState st with
  | Except.ok p => p.1
  | Except.error _ => st

/-- A TraceContext whose four wire-format fields are all defined, which is
exactly what isInsideOfTraceSpan checks on the bound context. -/
def ContextComplete {D : Type} (c : TraceContext D) : Prop :=
  c.parentId.isSome = true ∧ c.traceId.isSome = true ∧
  c.traceFlags.isSome = true ∧ c.version.isSome = true

theorem heapModify_getElem? (f : JSMap → JSMap) (h : List JSMap) (r : Nat) :
    (heapModify f h r)[r]? = h[r]?.map f := by
  induction h generalizing r with
  | nil => simp [heapModify]
  | cons m t ih =>
    cases r with
    | zero => simp [heapModify]
    | succ n => simpa [heapModify] using ih n

theorem bytesToHex_length (bs : List Nat) : (bytesToHex bs).length = 2 * bs.length := by
  induction bs with
  | nil => rfl
  | cons b t ih =>
    have hb : (byteToHex b).length = 2 := rfl
    simp [bytesToHex, String.length_append, hb, ih]
    omega

theorem isInsideOfTraceSpan_of_complete {D : Type} (hp : List JSMap) (c : TraceContext D)
    (h : ContextComplete c) :
    isInsideOfTraceSpan { heap := hp, current := some c } = true := by
  obtain ⟨h1, h2, h3, h4⟩ := h
  simp [isInsideOfTraceSpan, h1, h2, h3, h4]

/-- A concrete parent context used in the concrete evaluations: its
traceState references heap object 0. -/
def parentCtx : TraceContext Unit :=
  { name := "parent"
    id := "pid"
    parentId := some INVALID_SPAN_ID
    traceId := some "tid"
    version := some (JSNum.nat 0)
    traceFlags := some (JSNum.nat 0)
    traceState := some 0
    data := none }

/-- A concrete engine state: parentCtx is bound and its trace-state object
holds the single entry a maps to b. -/
def stShared : EngineState Unit :=
  { heap := [{ entries := [("a", "b")], frozen := false }]
    current := some parentCtx }

/-- The traced-function body for the C3 evaluation: set k to v, read the
trace state, set k to v2, and return the final trace-state observation. -/
def setGetSetWork (st : EngineState Unit) :
    EngineState Unit × Except NotInSpanError (Option (List (String × String))) :=
  let s1 := (runMutator (fun s => setTraceStateProperty s "k" "v") st).1
  let s2 := afterGetTraceState s1
  let s3 := (runMutator (fun s => setTraceStateProperty s "k" "v2") s2).1
  match getTraceState s3 with
  | Except.ok p => (p.1, Except.ok p.2)
  | Except.error e => (s3, Except.error e)

/-- C1: evaluated against the claim, the serialization diverges.  For the
bound context whose trace-state mapping holds the single entry a maps to b,
getTraceStateString returns "=a,b" (the reduce interpolates each whole
[key, value] entry array after a leading "="), not the comma-joined
key=value rendering "a=b" that the claim (and the function's own tracestate
header documentation) describe. -/
theorem getTraceStateString_entry_format :
    (getTraceStateString stShared).toOption.map Prod.snd = some (some "=a,b") ∧
    ("=a,b" : String) ≠ "a=b" := by
  decide

/-- C2 counterexample: a span nested (no seed) inside stShared's bound
parent, whose context's trace-state mapping holds the entry a maps to b,
calls setTraceStateProperty k v; after the child exits, the parent's
trace-state object (heap object 0) now also holds the entry k maps to v -
the parent's mapping did not stay unchanged. -/
theorem nested_set_mutates_parent_mapping :
    (span stShared "child" (runMutator (fun s => setTraceStateProperty s "k" "v")) none
        [] []).1.heap.get? 0 =
      some { entries := [("a", "b"), ("k", "v")], frozen := false } ∧
    (span stShared "child" (runMutator (fun s => setTraceStateProperty s "k" "v")) none
        [] []).1.heap.get? 0 ≠ stShared.heap.get? 0 := by
  decide

/-- C2 amended: a nested child (no seed) does receive a new derived record
and the parent's record itself - every field, including its traceState
reference - is restored unchanged when the child exits; but that reference
is shared with the parent, so setTraceStateProperty and
deleteTraceStateProperty inside the child mutate the shared mapping's
contents, which the parent observes afterwards. -/
theorem nested_span_traceState_shared {D : Type} (st : EngineState D) (p : TraceContext D)
    (r : Nat) (m : JSMap) (name k v dk : String) (sb tb : List Nat)
    (hc : st.current = some p) (hts : p.traceState = some r)
    (hm : st.heap.get? r = some m) (hf : m.frozen = false) :
    ((span st name (runMutator (fun s => setTraceStateProperty s k v)) none sb tb).1.current =
        some p ∧
      (span st name (runMutator (fun s => setTraceStateProperty s k v)) none sb tb).1.heap.get?
          r =
        some { entries := entriesSet m.entries k v, frozen := false }) ∧
    ((span st name (runMutator (fun s => deleteTraceStateProperty s dk)) none sb tb).1.current =
        some p ∧
      (span st name (runMutator (fun s => deleteTraceStateProperty s dk)) none sb
            tb).1.heap.get? r =
        some { entries := entriesDelete m.entries dk, frozen := false }) ∧
    (deriveContext st.current none name (generateSpanId sb) (generateTraceId tb)).traceState =
      p.traceState := by
  have hm' : st.heap[r]? = some m := by simpa using hm
  simp [span, alsRun, deriveContext, buildTraceContext, hc, hts, runMutator,
    setTraceStateProperty, deleteTraceStateProperty, objectSet, objectDelete,
    heapModify_getElem?, hm', hf]

theorem nested_span_traceState_shared_witness :
    (span stShared "child" (runMutator (fun s => setTraceStateProperty s "k" "v")) none []
        []).1.current = some parentCtx :=
  (nested_span_traceState_shared stShared parentCtx 0 ⟨[("a", "b")], false⟩ "child" "k" "v" "d"
    [] [] rfl rfl rfl rfl).1.1

/-- C3: evaluated against the claim, the overwrite after an intervening read
fails.  Inside a fresh span, setTraceStateProperty k v; getTraceState;
setTraceStateProperty k v2 ends with getTraceState observing the entry k
maps to v, not v2: getTraceState freezes the live mapping in place, so the
second assignment cannot modify it. -/
theorem freeze_blocks_overwrite :
    (span (⟨[], none⟩ : EngineState Unit) "s" setGetSetWork none []
        (List.replicate 16 0)).2 = Except.ok (some [("k", "v")]) ∧
    (some [("k", "v")] : Option (List (String × String))) ≠ some [("k", "v2")] :=
  ⟨rfl, by decide⟩

/-- C4: a span nested with no seed inside a bound parent derives a context
that keeps the parent's traceId, version, traceFlags and traceState, sets
parentId to the parent's traceId (not the parent's span id), does not
inherit the parent's data, and carries the freshly generated id. -/
theorem nested_span_inherits_parent {D : Type} (st : EngineState D) (p : TraceContext D)
    (t name : String) (sb tb : List Nat) (hc : st.current = some p)
    (ht : p.traceId = some t) :
    deriveContext st.current none name (generateSpanId sb) (generateTraceId tb) =
      { name := name
        id := generateSpanId sb
        parentId := some t
        traceId := some t
        version := p.version
        traceFlags := p.traceFlags
        traceState := p.traceState
        data := none } := by
  simp [deriveContext, buildTraceContext, hc, ht]

theorem nested_span_inherits_parent_witness :
    deriveContext stShared.current none "child" (generateSpanId []) (generateTraceId []) =
      { name := "child"
        id := generateSpanId []
        parentId := some "tid"
        traceId := some "tid"
        version := some (JSNum.nat 0)
        traceFlags := some (JSNum.nat 0)
        traceState := some 0
        data := none } :=
  nested_span_inherits_parent stShared parentCtx "tid" "child" [] [] rfl rfl

/-- C5: span binds the derived context for exactly the extent of the traced
function (the traced function runs on the state carrying that binding),
restores the previous binding unconditionally - the equalities hold for
every traced function, also those returning Except.error, the model of an
abnormal termination - and passes the traced function's value or raised
condition through unchanged, together with every heap effect it made. -/
theorem span_scoped_binding {D ε α : Type} (st : EngineState D) (name : String)
    (work : EngineState D → EngineState D × Except ε α) (seed : Option (SeedContext D))
    (sb tb : List Nat) :
    (span st name work seed sb tb).2 =
      (work { st with current := some (deriveContext st.current seed name (generateSpanId sb)
          (generateTraceId tb)) }).2 ∧
    (span st name work seed sb tb).1.current = st.current ∧
    (span st name work seed sb tb).1.heap =
      (work { st with current := some (deriveContext st.current seed name (generateSpanId sb)
          (generateTraceId tb)) }).1.heap :=
  ⟨rfl, rfl, rfl⟩

/-- C6: with no context bound, every accessor and mutator of the scope
engine except isInsideOfTraceSpan signals NotInSpanError and leaves the
state untouched; isInsideOfTraceSpan is a total Boolean function (it never
fails) and returns true exactly when a context is bound whose parentId,
traceId, traceFlags and version are all defined. -/
theorem accessors_require_span {D : Type} (st st' : EngineState D) (d : D) (k v : String)
    (h : st.current = none) :
    getSpanId st = Except.error NotInSpanError.mk ∧
    getTrace st = Except.error NotInSpanError.mk ∧
    getTraceString st = Except.error NotInSpanError.mk ∧
    getTraceChild st = Except.error NotInSpanError.mk ∧
    getTraceChildString st = Except.error NotInSpanError.mk ∧
    getTraceState st = Except.error NotInSpanError.mk ∧
    getTraceStateString st = Except.error NotInSpanError.mk ∧
    getContextData st = Except.error NotInSpanError.mk ∧
    setContextData st d = Except.error NotInSpanError.mk ∧
    setTraceStateProperty st k v = Except.error NotInSpanError.mk ∧
    deleteTraceStateProperty st k = Except.error NotInSpanError.mk ∧
    (runMutator (fun s => setContextData s d) st).1 = st ∧
    (runMutator (fun s => setTraceStateProperty s k v) st).1 = st ∧
    (runMutator (fun s => deleteTraceStateProperty s k) st).1 = st ∧
    afterGetTraceState st = st ∧
    (isInsideOfTraceSpan st' = true ↔
      ∃ c, st'.current = some c ∧ c.parentId.isSome = true ∧ c.traceId.isSome = true ∧
        c.traceFlags.isSome = true ∧ c.version.isSome = true) := by
  obtain ⟨hp, cur⟩ := st
  simp only at h
  subst h
  refine ⟨rfl, rfl, rfl, rfl, rfl, rfl, rfl, rfl, rfl, rfl, rfl, rfl, rfl, rfl, rfl, ?_⟩
  obtain ⟨hp', cur'⟩ := st'
  cases cur' with
  | none => simp [isInsideOfTraceSpan]
  | some c => simp [isInsideOfTraceSpan, Bool.and_eq_true, and_assoc]

theorem accessors_require_span_witness :
    getSpanId (⟨[], none⟩ : EngineState Unit) = Except.error NotInSpanError.mk :=
  (accessors_require_span (⟨[], none⟩ : EngineState Unit) ⟨[], none⟩ () "k" "v" rfl).1

/-- C7: a span with no seed and no enclosing binding derives a context with
the all-zero invalid span id sentinel as parentId, the freshly generated
traceId (32 characters, two per random byte), version 0, traceFlags 0, and
no trace state. -/
theorem fresh_span_defaults {D : Type} (st : EngineState D) (name : String)
    (sb tb : List Nat) (hc : st.current = none) (htb : tb.length = 16) :
    (deriveContext st.current none name (generateSpanId sb) (generateTraceId tb)).parentId =
      some INVALID_SPAN_ID ∧
    (deriveContext st.current none name (generateSpanId sb) (generateTraceId tb)).traceId =
      some (generateTraceId tb) ∧
    (generateTraceId tb).length = 32 ∧
    (deriveContext st.current none name (generateSpanId sb) (generateTraceId tb)).version =
      some (JSNum.nat 0) ∧
    (deriveContext st.current none name (generateSpanId sb) (generateTraceId tb)).traceFlags =
      some (JSNum.nat 0) ∧
    (deriveContext st.current none name (generateSpanId sb) (generateTraceId tb)).traceState =
      none := by
  refine ⟨?_, ?_, ?_, ?_, ?_, ?_⟩ <;>
    simp [deriveContext, buildTraceContext, hc, generateTraceId, bytesToHex_length, htb,
      INVALID_SPAN_ID]

theorem fresh_span_defaults_witness :
    (generateTraceId (List.replicate 16 0)).length = 32 :=
  (fresh_span_defaults (⟨[], none⟩ : EngineState Unit) "s" [] (List.replicate 16 0) rfl
    (by decide)).2.2.1

/-- C8: buildTraceString renders the four dash-joined fields
version-traceId-parentId-traceFlags with version and traceFlags in natural
hexadecimal; on {version 0, traceId T, parentId P, traceFlags 1} it yields
"0-T-P-1".  The embedding is a pure function, matching the claim's purity
statement by construction. -/
theorem buildTraceString_format (tid pid : String) (v f : Nat) :
    buildTraceString
        { traceId := some tid
          version := some (JSNum.nat v)
          parentId := some pid
          traceFlags := some (JSNum.nat f) } =
      some (String.mk (Nat.toDigits 16 v) ++ "-" ++ tid ++ "-" ++ pid ++ "-" ++
        String.mk (Nat.toDigits 16 f)) ∧
    buildTraceString
        { traceId := some "T"
          version := some (JSNum.nat 0)
          parentId := some "P"
          traceFlags := some (JSNum.nat 1) } =
      some "0-T-P-1" :=
  ⟨rfl, by decide⟩

/-- C9: through each of the three derivation branches, the context span
binds has parentId, traceId, version and traceFlags all defined (parentId
because buildTraceContext substitutes the sentinel when it is missing),
provided the seed's traceId (when a seed is supplied) respectively the
enclosing context's checked fields (when nesting) are defined, as their
types state; hence isInsideOfTraceSpan returns true inside every span the
engine establishes. -/
theorem span_context_complete {D : Type} (st : EngineState D)
    (seed : Option (SeedContext D)) (name : String) (sb tb : List Nat)
    (hseed : ∀ s, seed = some s → s.traceId.isSome = true)
    (hcur : ∀ p, seed = none → st.current = some p → ContextComplete p) :
    ContextComplete
      (deriveContext st.current seed name (generateSpanId sb) (generateTraceId tb)) ∧
    isInsideOfTraceSpan
      { heap := st.heap
        current :=
          some (deriveContext st.current seed name (generateSpanId sb)
            (generateTraceId tb)) } = true := by
  have hcc : ContextComplete
      (deriveContext st.current seed name (generateSpanId sb) (generateTraceId tb)) := by
    cases hs : seed with
    | some s =>
      have := hseed s hs
      simp [deriveContext, buildTraceContext, ContextComplete, this]
    | none =>
      cases hc : st.current with
      | none => simp [deriveContext, buildTraceContext, ContextComplete]
      | some p =>
        obtain ⟨h1, h2, h3, h4⟩ := hcur p hs hc
        simp [deriveContext, buildTraceContext, ContextComplete, h2, h3, h4]
  exact ⟨hcc, isInsideOfTraceSpan_of_complete st.heap _ hcc⟩

theorem span_context_complete_witness :
    ContextComplete
      (deriveContext (⟨[], none⟩ : EngineState Unit).current none "s" (generateSpanId [])
        (generateTraceId [])) :=
  (span_context_complete (⟨[], none⟩ : EngineState Unit) none "s" [] []
    (fun _ h => nomatch h) (fun _ _ h => nomatch h)).1

/-- C10: with a seed supplied, the bound context's version and traceFlags
are the Number(...) conversions of the seed's dynamic version and traceFlags
values; in particular the numeric string "00" becomes the number 0 rather
than passing through unchanged. -/
theorem seed_numeric_conversion {D : Type} (cur : Option (TraceContext D))
    (s : SeedContext D) (name fsid ftid : String) :
    (deriveContext cur (some s) name fsid ftid).version = some (jsNumber s.version) ∧
    (deriveContext cur (some s) name fsid ftid).traceFlags = some (jsNumber s.traceFlags) ∧
    jsNumber (JSVal.str "00") = JSNum.nat 0 :=
  ⟨rfl, rfl, by decide⟩

end Tracer
